import Mathlib

set_option maxRecDepth 8000

/-!
Shallow embedding of the Apify submit / poll / fetch pipeline and of the
Groq text-generation fallbacks of `app.py` (Linkedin-Profile-Analyzer),
with proofs of the behavioural properties of these functions.

Network interactions are modelled by environments: functions from the
attempt index to the response (or exception) the corresponding
`requests` call would produce.  Python `None` is `Option.none`; a caught
exception is an explicit constructor of the response type.
-/

/-- A Python/JSON value, as far as the code inspects it: results of
`response.json()` are only ever tested with `isinstance(x, list)` /
`isinstance(x, dict)`, indexed at `[0]`, or returned unchanged. -/
inductive PyVal where
  | list (xs : List PyVal)
  | dict (fields : List (String × PyVal))
  | str (s : String)
  | int (n : Int)
  | null

/-- Outcome of one `requests.get` on the run-status endpoint
(`/v2/actor-runs/{run_id}`), as consumed by the loop body of
`poll_apify_run_with_status`: either an exception (network error,
malformed JSON, missing `"data"` key, ...) or a response carrying the
HTTP status code and `response.json()["data"].get("status", "UNKNOWN")`. -/
inductive StatusResult where
  | exn
  | resp (code : Nat) (status : String)

/-- Outcome of one `requests.get` on the dataset-items endpoint
(`/v2/datasets/{dataset_id}/items`): an exception, or a response with an
HTTP status code and the decoded JSON body. -/
inductive DatasetResult where
  | exn
  | resp (code : Nat) (items : PyVal)

/-- The external world as the polling loop observes it: the status
response and the dataset response that attempt number `i` would get. -/
structure PollEnv where
  statusAt : Nat → StatusResult
  datasetAt : Nat → DatasetResult

/-- Instrumented result of `poll_apify_run_with_status`: the returned
value (`none` is Python `None`) together with how many status requests,
dataset requests and `time.sleep(10)` calls were executed. -/
structure PollTrace where
  result : Option PyVal
  statusCalls : Nat
  datasetCalls : Nat
  sleeps : Nat

/-- `max_attempts = 60` of `poll_apify_run_with_status`. -/
def max_attempts : Nat := 60

/-- Body of the `for attempt in range(max_attempts)` loop of
`poll_apify_run_with_status` (app.py lines 207-248), by structural
recursion on the remaining attempts.  Mirrors the source exactly:

* exception anywhere in the `try` body: `time.sleep(10)` and next attempt;
* HTTP 200 with status `"SUCCEEDED"`: fetch the dataset; on HTTP 200 a
  non-empty list returns its first item and a dict is returned whole,
  anything else falls through to the next attempt with no sleep; a
  non-200 dataset response returns `None`;
* HTTP 200 with status in `["FAILED", "TIMED-OUT", "ABORTED"]`:
  return `None`;
* HTTP 200 with status `"RUNNING"`: `time.sleep(10)` and next attempt;
* HTTP 200 with any other status: next attempt with no sleep (no branch
  of the `if`/`elif` chain matches and the loop body just ends);
* non-200 status response: `time.sleep(10)` and next attempt;
* loop exhausted: return `None` ("Polling timeout").
-/
def pollFrom (env : PollEnv) : Nat → Nat → Nat → Nat → Nat → PollTrace
  | 0, _, s, d, sl => ⟨none, s, d, sl⟩
  | r + 1, i, s, d, sl =>
    match env.statusAt i with
    | .exn => pollFrom env r (i + 1) (s + 1) d (sl + 1)
    | .resp code status =>
      if code = 200 then
        if status = "SUCCEEDED" then
          match env.datasetAt i with
          | .exn => pollFrom env r (i + 1) (s + 1) (d + 1) (sl + 1)
          | .resp dcode items =>
            if dcode = 200 then
              match items with
              | .list (x :: _) => ⟨some x, s + 1, d + 1, sl⟩
              | .dict fields => ⟨some (.dict fields), s + 1, d + 1, sl⟩
              | _ => pollFrom env r (i + 1) (s + 1) (d + 1) sl
            else ⟨none, s + 1, d + 1, sl⟩
        else if status ∈ (["FAILED", "TIMED-OUT", "ABORTED"] : List String) then
          ⟨none, s + 1, d, sl⟩
        else if status = "RUNNING" then
          pollFrom env r (i + 1) (s + 1) d (sl + 1)
        else
          pollFrom env r (i + 1) (s + 1) d sl
      else
        pollFrom env r (i + 1) (s + 1) d (sl + 1)

/-- `poll_apify_run_with_status` (app.py lines 196-251), instrumented. -/
def poll_apify_run_with_status (env : PollEnv) : PollTrace :=
  pollFrom env max_attempts 0 0 0 0

/-- The dataset bodies that yield no payload: an empty list, or a value
that is neither a list nor a dict (non-empty lists return their head and
dicts are returned whole). -/
def emptyOrMalformed : PyVal → Bool
  | .list [] => true
  | .list (_ :: _) => false
  | .dict _ => false
  | _ => true

/-- A status-check outcome on which the loop body neither returns nor
fetches the dataset: an exception, a non-200 response, or a 200 response
whose status is none of `"SUCCEEDED"`, `"FAILED"`, `"TIMED-OUT"`,
`"ABORTED"`. -/
def continuesWithoutReturn : StatusResult → Bool
  | .exn => true
  | .resp code status =>
    if code = 200 then
      if status = "SUCCEEDED" then false
      else if status ∈ (["FAILED", "TIMED-OUT", "ABORTED"] : List String) then false
      else true
    else true

theorem pollFrom_exn_step (env : PollEnv) {i : Nat}
    (h : env.statusAt i = .exn) (r s d sl : Nat) :
    pollFrom env (r + 1) i s d sl = pollFrom env r (i + 1) (s + 1) d (sl + 1) := by
  simp [pollFrom, h]

theorem pollFrom_non200_step (env : PollEnv) {i code : Nat} {status : String}
    (h : env.statusAt i = .resp code status) (hc : code ≠ 200) (r s d sl : Nat) :
    pollFrom env (r + 1) i s d sl = pollFrom env r (i + 1) (s + 1) d (sl + 1) := by
  simp [pollFrom, h, hc]

theorem pollFrom_running_step (env : PollEnv) {i : Nat}
    (h : env.statusAt i = .resp 200 "RUNNING") (r s d sl : Nat) :
    pollFrom env (r + 1) i s d sl = pollFrom env r (i + 1) (s + 1) d (sl + 1) := by
  simp [pollFrom, h]

theorem pollFrom_terminal_step (env : PollEnv) {i : Nat} {f : String}
    (h : env.statusAt i = .resp 200 f)
    (hf : f ∈ (["FAILED", "TIMED-OUT", "ABORTED"] : List String)) (r s d sl : Nat) :
    pollFrom env (r + 1) i s d sl = ⟨none, s + 1, d, sl⟩ := by
  rcases List.mem_cons.1 hf with rfl | hf
  · simp [pollFrom, h]
  rcases List.mem_cons.1 hf with rfl | hf
  · simp [pollFrom, h]
  rcases List.mem_cons.1 hf with rfl | hf
  · simp [pollFrom, h]
  simp at hf

theorem pollFrom_unknown_step (env : PollEnv) {i : Nat} {f : String}
    (h : env.statusAt i = .resp 200 f)
    (h1 : f ≠ "SUCCEEDED")
    (h2 : f ∉ (["FAILED", "TIMED-OUT", "ABORTED"] : List String))
    (h3 : f ≠ "RUNNING") (r s d sl : Nat) :
    pollFrom env (r + 1) i s d sl = pollFrom env r (i + 1) (s + 1) d sl := by
  simp [pollFrom, h, h1, h2, h3]

theorem pollFrom_succeeded_item_step (env : PollEnv) {i : Nat} {x : PyVal} {xs : List PyVal}
    (h1 : env.statusAt i = .resp 200 "SUCCEEDED")
    (h2 : env.datasetAt i = .resp 200 (.list (x :: xs))) (r s d sl : Nat) :
    pollFrom env (r + 1) i s d sl = ⟨some x, s + 1, d + 1, sl⟩ := by
  simp [pollFrom, h1, h2]

theorem pollFrom_dict_step (env : PollEnv) {i : Nat} {fs : List (String × PyVal)}
    (h1 : env.statusAt i = .resp 200 "SUCCEEDED")
    (h2 : env.datasetAt i = .resp 200 (.dict fs)) (r s d sl : Nat) :
    pollFrom env (r + 1) i s d sl = ⟨some (.dict fs), s + 1, d + 1, sl⟩ := by
  simp [pollFrom, h1, h2]

theorem pollFrom_dataset_exn_step (env : PollEnv) {i : Nat}
    (h1 : env.statusAt i = .resp 200 "SUCCEEDED")
    (h2 : env.datasetAt i = .exn) (r s d sl : Nat) :
    pollFrom env (r + 1) i s d sl = pollFrom env r (i + 1) (s + 1) (d + 1) (sl + 1) := by
  simp [pollFrom, h1, h2]

theorem pollFrom_dataset_non200_step (env : PollEnv) {i dcode : Nat} {items : PyVal}
    (h1 : env.statusAt i = .resp 200 "SUCCEEDED")
    (h2 : env.datasetAt i = .resp dcode items) (hdc : dcode ≠ 200) (r s d sl : Nat) :
    pollFrom env (r + 1) i s d sl = ⟨none, s + 1, d + 1, sl⟩ := by
  simp [pollFrom, h1, h2, hdc]

theorem pollFrom_nopayload_step (env : PollEnv) {i : Nat} {v : PyVal}
    (h1 : env.statusAt i = .resp 200 "SUCCEEDED")
    (h2 : env.datasetAt i = .resp 200 v)
    (hv : emptyOrMalformed v = true) (r s d sl : Nat) :
    pollFrom env (r + 1) i s d sl = pollFrom env r (i + 1) (s + 1) (d + 1) sl := by
  cases v with
  | list xs =>
    cases xs with
    | nil => simp [pollFrom, h1, h2]
    | cons y ys => simp [emptyOrMalformed] at hv
  | dict fields => simp [emptyOrMalformed] at hv
  | str s' => simp [pollFrom, h1, h2]
  | int n => simp [pollFrom, h1, h2]
  | null => simp [pollFrom, h1, h2]

theorem pollFrom_all_running (env : PollEnv) :
    ∀ r i s d sl : Nat,
      (∀ j, i ≤ j → j < i + r → env.statusAt j = .resp 200 "RUNNING") →
      pollFrom env r i s d sl = ⟨none, s + r, d, sl + r⟩ := by
  intro r
  induction r with
  | zero => intro i s d sl _; rfl
  | succ r ih =>
    intro i s d sl h
    rw [pollFrom_running_step env (h i le_rfl (by omega))]
    rw [ih (i + 1) (s + 1) d (sl + 1) (fun j h1 h2 => h j (by omega) (by omega))]
    simp [PollTrace.mk.injEq]
    omega

theorem pollFrom_running_prefix (env : PollEnv) :
    ∀ k r i s d sl : Nat,
      (∀ j, i ≤ j → j < i + k → env.statusAt j = .resp 200 "RUNNING") →
      pollFrom env (k + r) i s d sl = pollFrom env r (i + k) (s + k) d (sl + k) := by
  intro k
  induction k with
  | zero => intro r i s d sl _; simp
  | succ k ih =>
    intro r i s d sl h
    rw [show k + 1 + r = (k + r) + 1 by omega]
    rw [pollFrom_running_step env (h i le_rfl (by omega))]
    rw [ih r (i + 1) (s + 1) d (sl + 1) (fun j h1 h2 => h j (by omega) (by omega))]
    rw [show i + 1 + k = i + (k + 1) by omega, show s + 1 + k = s + (k + 1) by omega,
        show sl + 1 + k = sl + (k + 1) by omega]

theorem pollFrom_exhaust (env : PollEnv) :
    ∀ r i s d sl : Nat,
      (∀ j, i ≤ j → j < i + r → continuesWithoutReturn (env.statusAt j) = true) →
      (pollFrom env r i s d sl).result = none ∧
      (pollFrom env r i s d sl).statusCalls = s + r := by
  intro r
  induction r with
  | zero => intro i s d sl _; exact ⟨rfl, rfl⟩
  | succ r ih =>
    intro i s d sl h
    have hi := h i le_rfl (by omega)
    have htail : ∀ j, i + 1 ≤ j → j < (i + 1) + r →
        continuesWithoutReturn (env.statusAt j) = true :=
      fun j h1 h2 => h j (by omega) (by omega)
    cases hst : env.statusAt i with
    | exn =>
      rw [pollFrom_exn_step env hst]
      obtain ⟨h1, h2⟩ := ih (i + 1) (s + 1) d (sl + 1) htail
      exact ⟨h1, by rw [h2]; omega⟩
    | resp code status =>
      rw [hst] at hi
      by_cases hc : code = 200
      · subst hc
        simp only [continuesWithoutReturn, if_true] at hi
        by_cases hsu : status = "SUCCEEDED"
        · rw [if_pos hsu] at hi; exact absurd hi (by simp)
        rw [if_neg hsu] at hi
        by_cases hterm : status ∈ (["FAILED", "TIMED-OUT", "ABORTED"] : List String)
        · rw [if_pos hterm] at hi; exact absurd hi (by simp)
        by_cases hrun : status = "RUNNING"
        · subst hrun
          rw [pollFrom_running_step env hst]
          obtain ⟨h1, h2⟩ := ih (i + 1) (s + 1) d (sl + 1) htail
          exact ⟨h1, by rw [h2]; omega⟩
        · rw [pollFrom_unknown_step env hst hsu hterm hrun]
          obtain ⟨h1, h2⟩ := ih (i + 1) (s + 1) d sl htail
          exact ⟨h1, by rw [h2]; omega⟩
      · rw [pollFrom_non200_step env hst hc]
        obtain ⟨h1, h2⟩ := ih (i + 1) (s + 1) d (sl + 1) htail
        exact ⟨h1, by rw [h2]; omega⟩

theorem pollFrom_succ_nopayload (env : PollEnv) :
    ∀ r i s d sl : Nat,
      (∀ j, i ≤ j → j < i + r →
        env.statusAt j = .resp 200 "SUCCEEDED" ∧
        ∃ v, env.datasetAt j = .resp 200 v ∧ emptyOrMalformed v = true) →
      (pollFrom env r i s d sl).result = none ∧
      (pollFrom env r i s d sl).statusCalls = s + r ∧
      (pollFrom env r i s d sl).datasetCalls = d + r := by
  intro r
  induction r with
  | zero => intro i s d sl _; exact ⟨rfl, rfl, rfl⟩
  | succ r ih =>
    intro i s d sl h
    obtain ⟨hs, v, hd, hv⟩ := h i le_rfl (by omega)
    rw [pollFrom_nopayload_step env hs hd hv]
    obtain ⟨h1, h2, h3⟩ := ih (i + 1) (s + 1) (d + 1) sl
      (fun j ha hb => h j (by omega) (by omega))
    exact ⟨h1, by rw [h2]; omega, by rw [h3]; omega⟩

theorem pollFrom_ext (env₁ env₂ : PollEnv) :
    ∀ r i s d sl : Nat,
      (∀ j, i ≤ j → env₁.statusAt j = env₂.statusAt j) →
      (∀ j, i ≤ j → env₁.datasetAt j = env₂.datasetAt j) →
      pollFrom env₁ r i s d sl = pollFrom env₂ r i s d sl := by
  intro r
  induction r with
  | zero => intro i s d sl _ _; rfl
  | succ r ih =>
    intro i s d sl hs hd
    have hsi := hs i le_rfl
    have hdi := hd i le_rfl
    have hstail : ∀ j, i + 1 ≤ j → env₁.statusAt j = env₂.statusAt j :=
      fun j hj => hs j (by omega)
    have hdtail : ∀ j, i + 1 ≤ j → env₁.datasetAt j = env₂.datasetAt j :=
      fun j hj => hd j (by omega)
    cases h2 : env₂.statusAt i with
    | exn =>
      have h1 : env₁.statusAt i = .exn := hsi.trans h2
      rw [pollFrom_exn_step env₁ h1, pollFrom_exn_step env₂ h2]
      exact ih (i + 1) (s + 1) d (sl + 1) hstail hdtail
    | resp code status =>
      have h1 : env₁.statusAt i = .resp code status := hsi.trans h2
      by_cases hc : code = 200
      · subst hc
        by_cases hsu : status = "SUCCEEDED"
        · subst hsu
          cases hd2 : env₂.datasetAt i with
          | exn =>
            have hd1 : env₁.datasetAt i = .exn := hdi.trans hd2
            rw [pollFrom_dataset_exn_step env₁ h1 hd1,
                pollFrom_dataset_exn_step env₂ h2 hd2]
            exact ih (i + 1) (s + 1) (d + 1) (sl + 1) hstail hdtail
          | resp dcode items =>
            have hd1 : env₁.datasetAt i = .resp dcode items := hdi.trans hd2
            by_cases hdc : dcode = 200
            · subst hdc
              cases items with
              | list xs =>
                cases xs with
                | nil =>
                  rw [pollFrom_nopayload_step env₁ h1 hd1 rfl,
                      pollFrom_nopayload_step env₂ h2 hd2 rfl]
                  exact ih (i + 1) (s + 1) (d + 1) sl hstail hdtail
                | cons x xs =>
                  rw [pollFrom_succeeded_item_step env₁ h1 hd1,
                      pollFrom_succeeded_item_step env₂ h2 hd2]
              | dict fields =>
                rw [pollFrom_dict_step env₁ h1 hd1, pollFrom_dict_step env₂ h2 hd2]
              | str s' =>
                rw [pollFrom_nopayload_step env₁ h1 hd1 rfl,
                    pollFrom_nopayload_step env₂ h2 hd2 rfl]
                exact ih (i + 1) (s + 1) (d + 1) sl hstail hdtail
              | int n =>
                rw [pollFrom_nopayload_step env₁ h1 hd1 rfl,
                    pollFrom_nopayload_step env₂ h2 hd2 rfl]
                exact ih (i + 1) (s + 1) (d + 1) sl hstail hdtail
              | null =>
                rw [pollFrom_nopayload_step env₁ h1 hd1 rfl,
                    pollFrom_nopayload_step env₂ h2 hd2 rfl]
                exact ih (i + 1) (s + 1) (d + 1) sl hstail hdtail
            · rw [pollFrom_dataset_non200_step env₁ h1 hd1 hdc,
                  pollFrom_dataset_non200_step env₂ h2 hd2 hdc]
        · by_cases hterm : status ∈ (["FAILED", "TIMED-OUT", "ABORTED"] : List String)
          · rw [pollFrom_terminal_step env₁ h1 hterm, pollFrom_terminal_step env₂ h2 hterm]
          by_cases hrun : status = "RUNNING"
          · subst hrun
            rw [pollFrom_running_step env₁ h1, pollFrom_running_step env₂ h2]
            exact ih (i + 1) (s + 1) d (sl + 1) hstail hdtail
          · rw [pollFrom_unknown_step env₁ h1 hsu hterm hrun,
                pollFrom_unknown_step env₂ h2 hsu hterm hrun]
            exact ih (i + 1) (s + 1) d sl hstail hdtail
      · rw [pollFrom_non200_step env₁ h1 hc, pollFrom_non200_step env₂ h2 hc]
        exact ih (i + 1) (s + 1) d (sl + 1) hstail hdtail

/-- Environment in which every status check reports HTTP 200 / `"RUNNING"`. -/
def envAllRunning : PollEnv :=
  ⟨fun _ => .resp 200 "RUNNING", fun _ => .exn⟩

/-- Environment in which every status check reports HTTP 200 / `"READY"`
(the Apify status of a queued run, unhandled by the `if`/`elif` chain). -/
def envAllReady : PollEnv :=
  ⟨fun _ => .resp 200 "READY", fun _ => .exn⟩

/-- Environment in which every status check reports HTTP 200 / `"FAILED"`. -/
def envAllFailed : PollEnv :=
  ⟨fun _ => .resp 200 "FAILED", fun _ => .exn⟩

/-- Environment in which every status check reports HTTP 500. -/
def envAllServerError : PollEnv :=
  ⟨fun _ => .resp 500 "", fun _ => .exn⟩

/-- Environment in which the first status check raises a network
exception and every later one reports HTTP 200 / `"RUNNING"`. -/
def envExnFirst : PollEnv :=
  ⟨fun j => if j = 0 then .exn else .resp 200 "RUNNING", fun _ => .exn⟩

/-- Environment in which the run is always `"SUCCEEDED"` and the dataset
endpoint always returns HTTP 200 with an empty item list. -/
def envSucceededEmpty : PollEnv :=
  ⟨fun _ => .resp 200 "SUCCEEDED", fun _ => .resp 200 (.list [])⟩

/-- Environment of the success scenario: `"RUNNING"` on attempts 0-2,
`"SUCCEEDED"` from attempt 3 on, dataset a one-item list. -/
def envScenario : PollEnv :=
  ⟨fun j => if j < 3 then .resp 200 "RUNNING" else .resp 200 "SUCCEEDED",
   fun _ => .resp 200 (.list [.str "profile"])⟩

/-- C1: as soon as a status check reports a terminal failure status
(`"FAILED"`, `"TIMED-OUT"` or `"ABORTED"`), `poll_apify_run_with_status`
returns the failure signal `None` at once: that status check is the last
one (the counter grows by exactly one), no dataset fetch and no further
sleep happens.  In particular a `"FAILED"` answer to the very first
check makes the whole poller return `None` after exactly one status call
and zero dataset calls. -/
theorem poll_terminal_failure_stops (env : PollEnv) (r i s d sl : Nat) (f : String)
    (h1 : env.statusAt i = .resp 200 f)
    (h2 : f ∈ (["FAILED", "TIMED-OUT", "ABORTED"] : List String)) :
    pollFrom env (r + 1) i s d sl = ⟨none, s + 1, d, sl⟩ ∧
    (∀ env₂ : PollEnv, env₂.statusAt 0 = .resp 200 f →
      poll_apify_run_with_status env₂ = ⟨none, 1, 0, 0⟩) := by
  refine ⟨pollFrom_terminal_step env h1 h2 r s d sl, fun env₂ h0 => ?_⟩
  have := pollFrom_terminal_step env₂ h0 h2 59 0 0 0
  simpa [poll_apify_run_with_status, max_attempts] using this

/-- Witness for C1: the concrete environment whose first status check
answers `"FAILED"`. -/
theorem poll_terminal_failure_stops_witness :
    poll_apify_run_with_status envAllFailed = ⟨none, 1, 0, 0⟩ :=
  (poll_terminal_failure_stops envAllFailed 0 0 0 0 0 "FAILED" rfl (by decide)).2
    envAllFailed rfl

/-- C2: if all 60 status checks end in an outcome on which the loop
keeps going (exception, non-200 response, or a 200 response whose status
is neither `"SUCCEEDED"` nor terminal), the poller returns the timeout
failure `None` after exactly 60 status checks; when moreover every check
reports `"RUNNING"`, it also sleeps exactly 60 times 10 seconds. -/
theorem poll_timeout_after_max_attempts (env : PollEnv)
    (h : ∀ j, j < 60 → continuesWithoutReturn (env.statusAt j) = true) :
    (poll_apify_run_with_status env).result = none ∧
    (poll_apify_run_with_status env).statusCalls = 60 ∧
    ((∀ j, j < 60 → env.statusAt j = .resp 200 "RUNNING") →
      poll_apify_run_with_status env = ⟨none, 60, 0, 60⟩) := by
  obtain ⟨h1, h2⟩ := pollFrom_exhaust env 60 0 0 0 0 (fun j _ hj => h j (by omega))
  refine ⟨h1, h2, fun hr => ?_⟩
  have := pollFrom_all_running env 60 0 0 0 0 (fun j _ hj => hr j (by omega))
  simpa [poll_apify_run_with_status, max_attempts] using this

/-- Witness for C2: 60 consecutive `"RUNNING"` responses. -/
theorem poll_timeout_after_max_attempts_witness :
    poll_apify_run_with_status envAllRunning = ⟨none, 60, 0, 60⟩ :=
  (poll_timeout_after_max_attempts envAllRunning (fun _ _ => rfl)).2.2 (fun _ _ => rfl)

/-- C3: when the run reports `"SUCCEEDED"` but the dataset endpoint
answers HTTP 200 with an empty (or otherwise non-list, non-dict) body,
`poll_apify_run_with_status` returns the no-payload failure signal
`None` and raises nothing; the loop body merely falls through, so the
poller re-checks and re-fetches on every one of its 60 attempts before
giving up. -/
theorem poll_succeeded_empty_dataset_no_payload (env : PollEnv)
    (h : ∀ j, j < 60 →
      env.statusAt j = .resp 200 "SUCCEEDED" ∧
      ∃ v, env.datasetAt j = .resp 200 v ∧ emptyOrMalformed v = true) :
    (poll_apify_run_with_status env).result = none ∧
    (poll_apify_run_with_status env).statusCalls = 60 ∧
    (poll_apify_run_with_status env).datasetCalls = 60 := by
  simpa [poll_apify_run_with_status, max_attempts] using
    pollFrom_succ_nopayload env 60 0 0 0 0 (fun j _ hj => h j (by omega))

/-- Witness for C3: a succeeded run whose dataset is always the empty list. -/
theorem poll_succeeded_empty_dataset_no_payload_witness :
    (poll_apify_run_with_status envSucceededEmpty).result = none ∧
    (poll_apify_run_with_status envSucceededEmpty).statusCalls = 60 ∧
    (poll_apify_run_with_status envSucceededEmpty).datasetCalls = 60 :=
  poll_succeeded_empty_dataset_no_payload envSucceededEmpty
    (fun _ _ => ⟨rfl, .list [], rfl, rfl⟩)

/-- Helper: the all-`"READY"` environment never sleeps and never returns
early: every iteration takes the unhandled-status fall-through branch. -/
theorem pollFrom_allReady (r : Nat) :
    ∀ i s d sl : Nat, pollFrom envAllReady r i s d sl = ⟨none, s + r, d, sl⟩ := by
  induction r with
  | zero => intro i s d sl; rfl
  | succ r ih =>
    intro i s d sl
    rw [pollFrom_unknown_step envAllReady rfl (by decide) (by decide) (by decide)]
    rw [ih (i + 1) (s + 1) d sl]
    simp [PollTrace.mk.injEq]
    omega

/-- Counterexample to C4: in the environment in which every status check
answers HTTP 200 with the unhandled status `"READY"`, the poller
performs 60 status checks and sleeps zero times: 59 consecutive pairs of
status checks happen with no sleep in between, contradicting the claim
that every non-final iteration sleeps the fixed duration regardless of
which non-terminal outcome the status check produced. -/
theorem poll_sleep_every_iteration_cex :
    (poll_apify_run_with_status envAllReady).statusCalls = 60 ∧
    (poll_apify_run_with_status envAllReady).sleeps = 0 := by
  have := pollFrom_allReady 60 0 0 0 0
  rw [poll_apify_run_with_status, max_attempts, this]
  exact ⟨rfl, rfl⟩

/-- C4 as amended: each loop iteration performs exactly one status
check; it is followed by a 10-second sleep whenever the outcome is an
exception, a non-200 response, or a 200 `"RUNNING"` response, but a 200
response with an unrecognized status (such as `"READY"`) falls through
to the next status check immediately, with no sleep. -/
theorem poll_one_check_then_sleep_branches (env : PollEnv) (r i s d sl : Nat) :
    (env.statusAt i = .exn →
      pollFrom env (r + 1) i s d sl = pollFrom env r (i + 1) (s + 1) d (sl + 1)) ∧
    (∀ code status, env.statusAt i = .resp code status → code ≠ 200 →
      pollFrom env (r + 1) i s d sl = pollFrom env r (i + 1) (s + 1) d (sl + 1)) ∧
    (env.statusAt i = .resp 200 "RUNNING" →
      pollFrom env (r + 1) i s d sl = pollFrom env r (i + 1) (s + 1) d (sl + 1)) ∧
    (∀ status, env.statusAt i = .resp 200 status →
      status ∉ (["SUCCEEDED", "FAILED", "TIMED-OUT", "ABORTED", "RUNNING"] : List String) →
      pollFrom env (r + 1) i s d sl = pollFrom env r (i + 1) (s + 1) d sl) := by
  refine ⟨fun h => pollFrom_exn_step env h r s d sl,
    fun code status h hc => pollFrom_non200_step env h hc r s d sl,
    fun h => pollFrom_running_step env h r s d sl,
    fun status h hn => ?_⟩
  refine pollFrom_unknown_step env h ?_ ?_ ?_ r s d sl
  · exact fun he => hn (by rw [he]; decide)
  · intro hm
    exact hn (by simp only [List.mem_cons] at hm ⊢; tauto)
  · exact fun he => hn (by rw [he]; decide)

/-- Witness for C4 as amended: one concrete instantiation of each of the
four branches. -/
theorem poll_one_check_then_sleep_branches_witness :
    pollFrom envExnFirst 60 0 0 0 0 = pollFrom envExnFirst 59 1 1 0 1 ∧
    pollFrom envAllServerError 60 0 0 0 0 = pollFrom envAllServerError 59 1 1 0 1 ∧
    pollFrom envAllRunning 60 0 0 0 0 = pollFrom envAllRunning 59 1 1 0 1 ∧
    pollFrom envAllReady 60 0 0 0 0 = pollFrom envAllReady 59 1 1 0 0 :=
  ⟨(poll_one_check_then_sleep_branches envExnFirst 59 0 0 0 0).1 rfl,
   (poll_one_check_then_sleep_branches envAllServerError 59 0 0 0 0).2.1 500 "" rfl
     (by decide),
   (poll_one_check_then_sleep_branches envAllRunning 59 0 0 0 0).2.2.1 rfl,
   (poll_one_check_then_sleep_branches envAllReady 59 0 0 0 0).2.2.2 "READY" rfl
     (by decide)⟩

/-- C5: a status check that raises an exception is treated exactly like
a `"RUNNING"` answer: the loop sleeps and moves on to the next attempt,
and the whole poller result is indistinguishable from that of an
environment answering `"RUNNING"` at that point and identical elsewhere. -/
theorem poll_exception_is_transient (env₁ env₂ : PollEnv) (r i s d sl : Nat)
    (h1 : env₁.statusAt i = .exn)
    (h2 : env₂.statusAt i = .resp 200 "RUNNING")
    (hs : ∀ j, j ≠ i → env₁.statusAt j = env₂.statusAt j)
    (hd : ∀ j, env₁.datasetAt j = env₂.datasetAt j) :
    pollFrom env₁ (r + 1) i s d sl = pollFrom env₁ r (i + 1) (s + 1) d (sl + 1) ∧
    pollFrom env₁ (r + 1) i s d sl = pollFrom env₂ (r + 1) i s d sl := by
  refine ⟨pollFrom_exn_step env₁ h1 r s d sl, ?_⟩
  rw [pollFrom_exn_step env₁ h1 r s d sl, pollFrom_running_step env₂ h2 r s d sl]
  exact pollFrom_ext env₁ env₂ r (i + 1) (s + 1) d (sl + 1)
    (fun j hj => hs j (by omega)) (fun j _ => hd j)

/-- Witness for C5: an exception on the first check, `"RUNNING"`
everywhere else, versus the all-`"RUNNING"` environment. -/
theorem poll_exception_is_transient_witness :
    pollFrom envExnFirst 60 0 0 0 0 = pollFrom envExnFirst 59 1 1 0 1 ∧
    pollFrom envExnFirst 60 0 0 0 0 = pollFrom envAllRunning 60 0 0 0 0 :=
  poll_exception_is_transient envExnFirst envAllRunning 59 0 0 0 0 rfl rfl
    (fun j hj => by simp [envExnFirst, envAllRunning, hj])
    (fun j => rfl)

/-- C7: when a status check reports `"SUCCEEDED"` and the dataset
endpoint answers HTTP 200 with a non-empty list, the poller returns the
first item of that list unchanged; in the scenario with `"RUNNING"` on
the first three checks, `"SUCCEEDED"` on the fourth and a one-item
dataset, the poller returns that very item (after 4 status checks, 1
dataset fetch and 3 sleeps). -/
theorem poll_returns_first_item (env : PollEnv) (x : PyVal) (xs : List PyVal)
    (r i s d sl : Nat)
    (h1 : env.statusAt i = .resp 200 "SUCCEEDED")
    (h2 : env.datasetAt i = .resp 200 (.list (x :: xs))) :
    pollFrom env (r + 1) i s d sl = ⟨some x, s + 1, d + 1, sl⟩ ∧
    (∀ (env₂ : PollEnv) (y : PyVal),
      (∀ j, j < 3 → env₂.statusAt j = .resp 200 "RUNNING") →
      env₂.statusAt 3 = .resp 200 "SUCCEEDED" →
      env₂.datasetAt 3 = .resp 200 (.list [y]) →
      poll_apify_run_with_status env₂ = ⟨some y, 4, 1, 3⟩) := by
  refine ⟨pollFrom_succeeded_item_step env h1 h2 r s d sl, ?_⟩
  intro env₂ y hr h3 hd3
  rw [poll_apify_run_with_status, max_attempts]
  rw [show (60 : Nat) = 3 + 57 from rfl,
    pollFrom_running_prefix env₂ 3 57 0 0 0 0 (fun j _ hj => hr j (by omega))]
  simpa using pollFrom_succeeded_item_step env₂ h3 hd3 56 3 0 3

/-- Witness for C7: the concrete scenario environment. -/
theorem poll_returns_first_item_witness :
    poll_apify_run_with_status envScenario = ⟨some (.str "profile"), 4, 1, 3⟩ :=
  (poll_returns_first_item envScenario (.str "profile") [] 0 3 0 0 0 rfl rfl).2
    envScenario (.str "profile") (fun j hj => by simp [envScenario, hj]) rfl rfl

/-- The handle dict `{"run_id": ..., "dataset_id": ..., "status": "RUNNING"}`
that `start_apify_run` builds from a creation response. -/
structure JobHandle where
  run_id : String
  dataset_id : String
  status : String
deriving DecidableEq

/-- Outcome of the `requests.post` that creates the actor run: an
exception, or a response with an HTTP status code and, when the decoded
JSON body carries them, the pair
`(response.json()["data"]["id"], response.json()["data"]["defaultDatasetId"])`;
`none` models a body from which reading those keys raises (the raise is
caught by the surrounding `except`). -/
inductive StartResult where
  | exn
  | resp (code : Nat) (data : Option (String × String))

/-- `start_apify_run` (app.py lines 17-46): HTTP 201 with a well-formed
body yields the handle with status `"RUNNING"`; any other status code,
a body without the ids, or an exception yields `None`. -/
def start_apify_run : StartResult → Option JobHandle
  | .exn => none
  | .resp code data =>
    if code = 201 then
      match data with
      | some (rid, did) => some ⟨rid, did, "RUNNING"⟩
      | none => none
    else none

/-- C6: `start_apify_run` returns, on a 201 creation response carrying
the run id and dataset id, the handle made of those two ids with status
`"RUNNING"`; on any non-201 status code and on an exception it returns
the no-handle failure signal `None` (the embedding is a total function,
so no exception escapes). -/
theorem start_apify_run_spec (r : StartResult) :
    (∀ rid did, r = .resp 201 (some (rid, did)) →
      start_apify_run r = some ⟨rid, did, "RUNNING"⟩) ∧
    (∀ code data, r = .resp code data → code ≠ 201 →
      start_apify_run r = none) ∧
    (r = .exn → start_apify_run r = none) := by
  refine ⟨fun rid did h => ?_, fun code data h hc => ?_, fun h => ?_⟩
  · subst h; rfl
  · subst h; simp [start_apify_run, hc]
  · subst h; rfl

/-- Witness for C6: one instance of each of the three branches. -/
theorem start_apify_run_spec_witness :
    start_apify_run (.resp 201 (some ("run1", "ds1"))) = some ⟨"run1", "ds1", "RUNNING"⟩ ∧
    start_apify_run (.resp 403 (some ("run1", "ds1"))) = none ∧
    start_apify_run .exn = none :=
  ⟨(start_apify_run_spec (.resp 201 (some ("run1", "ds1")))).1 "run1" "ds1" rfl,
   (start_apify_run_spec (.resp 403 (some ("run1", "ds1")))).2.1 403
     (some ("run1", "ds1")) rfl (by decide),
   (start_apify_run_spec .exn).2.2 rfl⟩

/-- Outcome of one `requests.post` to the Groq chat-completions
endpoint: an exception, a `requests.exceptions.Timeout`, or a response
with an HTTP status code and the generated text
`response.json()["choices"][0]["message"]["content"]`. -/
inductive ChatResult where
  | exn
  | timeout
  | resp (code : Nat) (content : String)

/-- `generate_research_brief` (app.py lines 253-312): the generated text
on HTTP 200, and the static fallback sentences on a non-200 status code,
on a timeout, and on any other exception. -/
def generate_research_brief : ChatResult → String
  | .resp code content =>
    if code = 200 then content
    else "Research brief generation encountered an issue (Status: " ++ toString code ++
      "). The profile data is loaded and ready for message generation."
  | .timeout =>
    "Research brief generation is taking longer than expected. Profile data is loaded and ready for message generation."
  | .exn =>
    "Research brief service temporarily unavailable. Profile data loaded successfully."

/-- Python `a or b` on strings: `b` when `a` is empty, else `a`. -/
def pyOr (a b : String) : String :=
  if a = "" then b else a

/-- Boolean list-prefix test on characters (for the Python `in` operator). -/
def isPrefixL : List Char → List Char → Bool
  | [], _ => true
  | _ :: _, [] => false
  | a :: as, b :: bs => a == b && isPrefixL as bs

/-- Boolean infix test on characters. -/
def isInfixL (pat : List Char) : List Char → Bool
  | [] => pat.isEmpty
  | c :: rest => isPrefixL pat (c :: rest) || isInfixL pat rest

/-- Python `pat in s` on strings (substring containment). -/
def containsSubstr (s pat : String) : Bool :=
  isInfixL pat.data s.data

/-- ASCII lower-casing of one character (all strings the code lowers and
compares are ASCII). -/
def lowerChar (c : Char) : Char :=
  if 'A' ≤ c ∧ c ≤ 'Z' then Char.ofNat (c.toNat + 32) else c

/-- Python `s.lower()`. -/
def pyLower (s : String) : String :=
  ⟨s.data.map lowerChar⟩

/-- Python `s.strip()` (whitespace from both ends). -/
def pyStrip (s : String) : String :=
  ⟨((s.data.dropWhile Char.isWhitespace).reverse.dropWhile Char.isWhitespace).reverse⟩

/-- Python `s.rstrip(chars)` generalized over a character predicate. -/
def dropRightWhileL (p : Char → Bool) (s : String) : String :=
  ⟨(s.data.reverse.dropWhile p).reverse⟩

/-- Python `s.rstrip()` (trailing whitespace). -/
def pyRstrip (s : String) : String :=
  dropRightWhileL Char.isWhitespace s

/-- Python `s.startswith(pat)`. -/
def startsWithPy (s pat : String) : Bool :=
  isPrefixL pat.data s.data

/-- Python `s.endswith(pat)`. -/
def endsWithPy (s pat : String) : Bool :=
  isPrefixL pat.data.reverse s.data.reverse

/-- Python `s.replace(pat, rep)` on character lists, fuelled by the
length of `s` (every occurrence of the non-empty patterns used in the
source consumes at least one character). -/
def replaceFuel : Nat → List Char → List Char → List Char → List Char
  | 0, s, _, _ => s
  | _ + 1, [], _, _ => []
  | fuel + 1, c :: rest, pat, rep =>
    if !pat.isEmpty && isPrefixL pat (c :: rest) then
      rep ++ replaceFuel fuel ((c :: rest).drop pat.length) pat rep
    else c :: replaceFuel fuel rest pat rep

/-- Python `s.replace(pat, rep)` (the source only uses non-empty `pat`). -/
def pyReplace (s pat rep : String) : String :=
  ⟨replaceFuel (s.data.length + 1) s.data pat.data rep.data⟩

/-- Python `s.split(pat)` on character lists, fuelled by the length of
`s`; `cur` accumulates the current piece in reverse. -/
def splitFuel (pat : List Char) : Nat → List Char → List Char → List (List Char)
  | 0, s, cur => [cur.reverse ++ s]
  | _ + 1, [], cur => [cur.reverse]
  | fuel + 1, c :: rest, cur =>
    if !pat.isEmpty && isPrefixL pat (c :: rest) then
      cur.reverse :: splitFuel pat fuel ((c :: rest).drop pat.length) []
    else splitFuel pat fuel rest (c :: cur)

/-- Python `s.split(pat)` (the source only uses non-empty `pat`). -/
def pySplit (s pat : String) : List String :=
  (splitFuel pat.data (s.data.length + 1) s.data []).map (⟨·⟩)

/-- Python `sep.join(parts)`. -/
def joinWith (sep : String) : List String → String
  | [] => ""
  | [x] => x
  | x :: xs => x ++ sep ++ joinWith sep xs

/-- Python `s[:n]`. -/
def pyTake (s : String) (n : Nat) : String :=
  ⟨s.data.take n⟩

/-- Python `c in s` for a single character. -/
def pyContainsChar (s : String) (c : Char) : Bool :=
  s.data.any (· == c)

/-- `exclude_keywords` of `filter_recent_relevant_posts` (app.py line 172). -/
def exclude_keywords : List String :=
  ["hiring", "job", "diwali", "holiday", "festival", "birthday"]

/-- `include_keywords` of `filter_recent_relevant_posts` (app.py line 173). -/
def include_keywords : List String :=
  ["technology", "digital", "growth", "project", "strategy"]

/-- A post as `filter_recent_relevant_posts` inspects it: a dict with an
optional `'text'` string, an optional `'timestamp'` number and the rest
of its (uninspected) fields, or a non-dict value, which is skipped. -/
inductive PostVal where
  | dict (text : Option String) (timestamp : Option Int) (rest : List (String × String))
  | other
deriving DecidableEq

/-- `filter_recent_relevant_posts` (app.py lines 163-194).  `current_time`
stands for `time.time()`; a missing `'text'` defaults to `""` and a
missing `'timestamp'` to `0`, exactly as `post.get` does. -/
def filter_recent_relevant_posts (current_time : Int) (posts : List PostVal) : List PostVal :=
  let one_month_ago := current_time - (30 * 24 * 60 * 60)
  posts.filter fun post =>
    match post with
    | .other => false
    | .dict text ts _ =>
      let post_text := pyLower (text.getD "")
      let post_time := ts.getD 0
      if post_time < one_month_ago then false
      else
        let has_excluded := exclude_keywords.any fun kw => containsSubstr post_text kw
        let has_included := include_keywords.any fun kw => containsSubstr post_text kw
        !has_excluded && has_included

/-- First fallback message of the non-200 branch of
`analyze_and_generate_message` (app.py line 831). -/
def non200_template1 (pn role sfn : String) : String :=
  "Hi " ++ pn ++ ",\nYour professional background in " ++ pyOr role "your field" ++
    " demonstrates expertise.\nI work on similar business transformations and thought it\x27d be great to connect.\nBest,\n" ++ sfn

/-- Second fallback message of the non-200 branch (app.py line 832). -/
def non200_template2 (pn company sfn : String) : String :=
  "Hi " ++ pn ++ ",\nYour experience at " ++ pyOr company "your organization" ++
    " shows commitment to growth.\nFocusing on similar improvements makes me think we should connect.\nBest,\n" ++ sfn

/-- Third fallback message of the non-200 branch (app.py line 833). -/
def non200_template3 (pn role sfn : String) : String :=
  "Hi " ++ pn ++ ",\nYour work in " ++ pyOr role "your domain" ++
    " aligns with business evolution.\nGiven our shared professional interests, let\x27s connect and exchange perspectives.\nBest,\n" ++ sfn

/-- Length adjustment applied to each non-200 fallback message
(app.py lines 837-841). -/
def clampNon200 (m : String) : String :=
  if m.length > 300 then pyTake m 297 ++ "..."
  else if m.length < 250 then
    m ++ " I focus on driving meaningful change in similar environments."
  else m

/-- The list of three fallback messages returned by the non-200 branch
of `analyze_and_generate_message` (app.py lines 828-843). -/
def analyze_non200_fallback (pn role company sfn : String) : List String :=
  ([non200_template1 pn role sfn, non200_template2 pn company sfn,
    non200_template3 pn role sfn].map clampNon200).take 3

/-- First template of the exception branch (app.py line 850). -/
def exn_template1 (pn sfn : String) : String :=
  "Hi " ++ pn ++ ",\nYour professional journey shows dedication to excellence in your field.\nWorking on similar business transformations makes me think we should connect.\nBest,\n" ++ sfn

/-- Second template of the exception branch (app.py line 851). -/
def exn_template2 (pn sfn : String) : String :=
  "Hi " ++ pn ++ ",\nYour experience demonstrates expertise in professional growth and development.\nGiven our shared focus on business improvement, would be great to connect.\nBest,\n" ++ sfn

/-- Third template of the exception branch (app.py line 852). -/
def exn_template3 (pn sfn : String) : String :=
  "Hi " ++ pn ++ ",\nYour background aligns with evolving business landscapes and opportunities.\nFocusing on similar advancements, let\x27s connect and exchange perspectives.\nBest,\n" ++ sfn

/-- Length adjustment applied to each exception-branch template
(app.py lines 855-861). -/
def clampExn (t : String) : String :=
  if 250 ≤ t.length ∧ t.length ≤ 300 then t
  else if t.length > 300 then pyTake t 297 ++ "..."
  else t ++ " Our shared professional interests make this connection valuable."

/-- The list of three fallback messages returned by the exception branch
of `analyze_and_generate_message` (app.py lines 845-863). -/
def analyze_exn_fallback (pn sfn : String) : List String :=
  ([exn_template1 pn sfn, exn_template2 pn sfn, exn_template3 pn sfn].map clampExn).take 3

/-- First entry of `fallback_template` inside the top-up `while` loop
(app.py line 817). -/
def whileTemplate1 (pn role sfn : String) : String :=
  "Hi " ++ pn ++ ",\nYour role in " ++ pyOr role "your field" ++
    " demonstrates expertise in professional growth.\nI focus on similar advancements in business technology - would be great to connect.\nBest,\n" ++ sfn

/-- Second entry of `fallback_template` (app.py line 818). -/
def whileTemplate2 (pn company sfn : String) : String :=
  "Hi " ++ pn ++ ",\nYour experience at " ++ pyOr company "your organization" ++
    " aligns with evolving business landscapes.\nWorking on similar transformations makes me think we should connect.\nBest,\n" ++ sfn

/-- Third entry of `fallback_template` (app.py line 819). -/
def whileTemplate3 (pn role sfn : String) : String :=
  "Hi " ++ pn ++ ",\nYour professional journey shows commitment to excellence in " ++
    pyOr role "your domain" ++
    ".\nGiven our shared focus on business improvement, let\x27s connect.\nBest,\n" ++ sfn

/-- `fallback_template` of the top-up `while` loop (app.py lines 816-820). -/
def fallback_template (pn role company sfn : String) : List String :=
  [whileTemplate1 pn role sfn, whileTemplate2 pn company sfn, whileTemplate3 pn role sfn]

/-- The per-message fallback built during validation (app.py line 810). -/
def validationFallback (pn role company sfn : String) : String :=
  "Hi " ++ pn ++ ",\nYour work at " ++ pyOr company "your company" ++
    " shows professional depth in " ++ pyOr role "your field" ++
    ".\nAs someone focused on similar business improvements, thought it\x27d be great to connect.\nBest,\n" ++ sfn

/-- State of the `Option 1/2/3` parsing loop (app.py lines 722-746). -/
structure ParseState where
  messages : List String
  currentOption : Option Nat
  currentMessage : List String

/-- One iteration of `for line in lines` (app.py lines 726-746). -/
def parseLine (st : ParseState) (rawLine : String) : ParseState :=
  let line := pyStrip rawLine
  let flushed :=
    if st.currentOption.isSome && !st.currentMessage.isEmpty then
      st.messages ++ [joinWith "\n" st.currentMessage]
    else st.messages
  if startsWithPy (pyLower line) "option 1:" || startsWithPy (pyLower line) "option1:" then
    ⟨flushed, some 1, [pyStrip (pyReplace (pyReplace line "Option 1:" "") "option1:" "")]⟩
  else if startsWithPy (pyLower line) "option 2:" || startsWithPy (pyLower line) "option2:" then
    ⟨flushed, some 2, [pyStrip (pyReplace (pyReplace line "Option 2:" "") "option2:" "")]⟩
  else if startsWithPy (pyLower line) "option 3:" || startsWithPy (pyLower line) "option3:" then
    ⟨flushed, some 3, [pyStrip (pyReplace (pyReplace line "Option 3:" "") "option3:" "")]⟩
  else if st.currentOption.isSome && line ≠ "" && !(startsWithPy (pyLower line) "option") then
    ⟨st.messages, st.currentOption, st.currentMessage ++ [line]⟩
  else
    st

/-- The `messages` list extracted from the completion text
(app.py lines 719-750). -/
def parseOptions (content : String) : List String :=
  let final := (pySplit content "\n").foldl parseLine ⟨[], none, []⟩
  if final.currentMessage.isEmpty then final.messages
  else final.messages ++ [joinWith "\n" final.currentMessage]

/-- Sentence-boundary shortening of one overlong middle line
(app.py lines 792-801). -/
def shortenLine (l : String) : String :=
  if l.length > 100 then
    if pyContainsChar l '.' then
      let sentences := pySplit l "."
      if sentences.length > 1 then pyStrip (sentences.headD "") ++ "."
      else pyTake l 95 ++ "..."
    else pyTake l 95 ++ "..."
  else l

/-- Greeting normalization (app.py lines 756-758). -/
def fixGreeting (pn msg : String) : String :=
  if !(startsWithPy (pyLower msg) ("hi " ++ pyLower pn ++ ",")) then
    "Hi " ++ pn ++ ",\n" ++ msg
  else msg

/-- Signature normalization (app.py lines 760-766). -/
def fixSignature (sfn msg : String) : String :=
  if !(endsWithPy (pyStrip msg) ("Best,\n" ++ sfn)) then
    let m := pyRstrip msg
    let m' :=
      if endsWithPy m "..." || endsWithPy m ".." || endsWithPy m "." then
        dropRightWhileL (· == '.') m
      else m
    m' ++ "\nBest,\n" ++ sfn
  else msg

/-- Lengthening of a too-short message (app.py lines 771-778). -/
def padShort (msg : String) : String :=
  let ls := pySplit msg "\n"
  if ls.length ≥ 3 then
    joinWith "\n"
      (ls.set 2 (ls.getD 2 "" ++ " I focus on similar business transformations."))
  else msg

/-- Shortening of a too-long message (app.py lines 780-803). -/
def shrinkLong (msg : String) : String :=
  let m := pyRstrip msg
  let m' := if containsSubstr m "..." then pyStrip ((pySplit m "...").headD "") else m
  let ls := pySplit m' "\n"
  if ls.length ≥ 4 then
    joinWith "\n"
      (ls.mapIdx fun i l => if 1 ≤ i ∧ i < ls.length - 1 then shortenLine l else l)
  else m'

/-- Validation of one parsed message (app.py lines 754-812): the list of
entries it contributes to `validated_messages` (one message, one
fallback, or nothing). -/
def processMessage (pn role company sfn msg0 : String) : List String :=
  let msg1 := fixGreeting pn msg0
  let msg2 := fixSignature sfn msg1
  let msg3 :=
    if msg2.length < 250 then padShort msg2
    else if msg2.length > 300 then shrinkLong msg2
    else msg2
  if 250 ≤ msg3.length ∧ msg3.length ≤ 300 then [msg3]
  else if 250 ≤ (validationFallback pn role company sfn).length ∧
      (validationFallback pn role company sfn).length ≤ 300 then
    [validationFallback pn role company sfn]
  else []

/-- `validated_messages` after the `for msg in messages` loop
(app.py lines 752-812). -/
def validated_messages (pn role company sfn : String) (msgs : List String) : List String :=
  msgs.foldl
    (fun acc m => if m ≠ "" then acc ++ processMessage pn role company sfn m else acc) []

/-- One pass of the body of `while len(validated_messages) < 3`
(app.py lines 815-824): the inner `for template in fallback_template`
appends each template whose length lies in `[250, 300]` while fewer than
3 messages are present. -/
def topUpStep (templates vs : List String) : List String :=
  templates.foldl
    (fun acc t =>
      if acc.length < 3 ∧ 250 ≤ t.length ∧ t.length ≤ 300 then acc ++ [t] else acc) vs

/-- The `while len(validated_messages) < 3` loop itself, with explicit
fuel; `none` means the given number of iterations did not reach the exit
condition. -/
def topUpLoop (templates : List String) : Nat → List String → Option (List String)
  | 0, vs => if vs.length < 3 then none else some vs
  | fuel + 1, vs =>
    if vs.length < 3 then topUpLoop templates fuel (topUpStep templates vs)
    else some vs

/-- The HTTP-200 branch of `analyze_and_generate_message`
(app.py lines 715-826): parse the options, validate them, top up to 3
from `fallback_template`, return the first 3. -/
def analyzeSuccess (content pn role company sfn : String) (fuel : Nat) :
    Option (List String) :=
  let msgs := parseOptions content
  let vs := validated_messages pn role company sfn msgs
  (topUpLoop (fallback_template pn role company sfn) fuel vs).map (fun l => l.take 3)

/-- `analyze_and_generate_message` (app.py lines 474-863) from the point
where the completion request has been issued, parameterized by the
already-extracted `prospect_name`, `prospect_role`, `prospect_company`
and `sender_first_name` (for `prospect_data = {}` and
`sender_info = {}`, those are `"there"`, `""`, `""`, `"Professional"`). -/
def analyze_and_generate_message (r : ChatResult) (pn role company sfn : String)
    (fuel : Nat) : Option (List String) :=
  match r with
  | .resp code content =>
    if code = 200 then analyzeSuccess (pyStrip content) pn role company sfn fuel
    else some (analyze_non200_fallback pn role company sfn)
  | .timeout => some (analyze_exn_fallback pn sfn)
  | .exn => some (analyze_exn_fallback pn sfn)

theorem clampNon200_length_pos (m : String) : 0 < (clampNon200 m).length := by
  unfold clampNon200
  split_ifs with h1 h2
  · rw [String.length_append]
    have h3 : 0 < ("..." : String).length := by decide
    omega
  · rw [String.length_append]
    have h3 :
        0 < (" I focus on driving meaningful change in similar environments." : String).length :=
      by decide
    omega
  · omega

theorem clampExn_length_pos (t : String) : 0 < (clampExn t).length := by
  unfold clampExn
  split_ifs with h1 h2
  · omega
  · rw [String.length_append]
    have h3 : 0 < ("..." : String).length := by decide
    omega
  · rw [String.length_append]
    have h3 :
        0 < (" Our shared professional interests make this connection valuable." : String).length :=
      by decide
    omega

/-- C8: on a non-200 completion response, and on a timeout or any other
request exception, `generate_research_brief` returns its static fallback
sentence (never the empty string), and `analyze_and_generate_message`
returns its designated list of exactly 3 fallback messages, each
non-empty; the failure is converted into these values, not re-raised
(all embedded functions are total). -/
theorem generator_fallbacks_nonempty (code : Nat) (content pn role company sfn : String)
    (hc : code ≠ 200) :
    0 < (generate_research_brief (.resp code content)).length ∧
    0 < (generate_research_brief .timeout).length ∧
    0 < (generate_research_brief .exn).length ∧
    (∀ fuel, analyze_and_generate_message (.resp code content) pn role company sfn fuel =
      some (analyze_non200_fallback pn role company sfn)) ∧
    (analyze_non200_fallback pn role company sfn).length = 3 ∧
    (∀ m ∈ analyze_non200_fallback pn role company sfn, 0 < m.length) ∧
    (∀ fuel, analyze_and_generate_message .exn pn role company sfn fuel =
      some (analyze_exn_fallback pn sfn)) ∧
    (analyze_exn_fallback pn sfn).length = 3 ∧
    (∀ m ∈ analyze_exn_fallback pn sfn, 0 < m.length) := by
  have e1 : analyze_non200_fallback pn role company sfn =
      [clampNon200 (non200_template1 pn role sfn),
       clampNon200 (non200_template2 pn company sfn),
       clampNon200 (non200_template3 pn role sfn)] := rfl
  have e2 : analyze_exn_fallback pn sfn =
      [clampExn (exn_template1 pn sfn), clampExn (exn_template2 pn sfn),
       clampExn (exn_template3 pn sfn)] := rfl
  refine ⟨?_, by decide, by decide, fun fuel => ?_, ?_, ?_, fun fuel => rfl, ?_, ?_⟩
  · simp only [generate_research_brief, if_neg hc]
    rw [String.length_append, String.length_append]
    have h3 :
        0 < ("Research brief generation encountered an issue (Status: " : String).length :=
      by decide
    omega
  · simp [analyze_and_generate_message, hc]
  · rw [e1]; rfl
  · intro m hm
    rw [e1] at hm
    simp only [List.mem_cons, List.not_mem_nil, or_false] at hm
    rcases hm with rfl | rfl | rfl
    · exact clampNon200_length_pos _
    · exact clampNon200_length_pos _
    · exact clampNon200_length_pos _
  · rw [e2]; rfl
  · intro m hm
    rw [e2] at hm
    simp only [List.mem_cons, List.not_mem_nil, or_false] at hm
    rcases hm with rfl | rfl | rfl
    · exact clampExn_length_pos _
    · exact clampExn_length_pos _
    · exact clampExn_length_pos _

/-- Witness for C8: a 500 response and an exception, with the default
extracted names. -/
theorem generator_fallbacks_nonempty_witness :
    0 < (generate_research_brief (.resp 500 "")).length ∧
    0 < (generate_research_brief .timeout).length ∧
    0 < (generate_research_brief .exn).length ∧
    (∀ fuel, analyze_and_generate_message (.resp 500 "") "there" "" "" "Professional" fuel =
      some (analyze_non200_fallback "there" "" "" "Professional")) ∧
    (analyze_non200_fallback "there" "" "" "Professional").length = 3 ∧
    (∀ m ∈ analyze_non200_fallback "there" "" "" "Professional", 0 < m.length) ∧
    (∀ fuel, analyze_and_generate_message .exn "there" "" "" "Professional" fuel =
      some (analyze_exn_fallback "there" "Professional")) ∧
    (analyze_exn_fallback "there" "Professional").length = 3 ∧
    (∀ m ∈ analyze_exn_fallback "there" "Professional", 0 < m.length) :=
  generator_fallbacks_nonempty 500 "" "there" "" "" "Professional" (by decide)

/-- C9: the top-up `while` loop of `analyze_and_generate_message` does
not always terminate.  With the default extracted values
(`prospect_data = {}` gives `prospect_name = "there"`,
`prospect_role = prospect_company = ""`; `sender_info = {}` gives
`sender_first_name = "Professional"`) and an HTTP-200 completion
response whose content is `""`, no message is parsed or validated, every
`fallback_template` entry is shorter than 250 characters, so one pass of
the loop body appends nothing and `len(validated_messages) < 3` holds
forever: no amount of loop fuel makes the function return. -/
theorem analyze_topup_loop_diverges :
    (∀ fuel,
      analyze_and_generate_message (.resp 200 "") "there" "" "" "Professional" fuel = none) ∧
    topUpStep (fallback_template "there" "" "" "Professional") [] = [] ∧
    (∀ t ∈ fallback_template "there" "" "" "Professional", t.length < 250) := by
  have hstep : topUpStep (fallback_template "there" "" "" "Professional") [] = [] := by
    decide
  refine ⟨?_, hstep, by decide⟩
  intro fuel
  have key : ∀ f, topUpLoop (fallback_template "there" "" "" "Professional") f
      ([] : List String) = none := by
    intro f
    induction f with
    | zero => rfl
    | succ f ih =>
      simp only [topUpLoop, hstep, List.length_nil]
      rw [if_pos (by norm_num)]
      exact ih
  have hval : validated_messages "there" "" "" "Professional"
      (parseOptions (pyStrip "")) = [] := by decide
  simp only [analyze_and_generate_message, analyzeSuccess, hval, key fuel, Option.map_none']
  simp

/-- Keywords-and-recency filter invariants, C10. -/
theorem filter_recent_relevant_posts_spec (current_time : Int) (posts : List PostVal)
    (h : 2592000 < current_time) :
    (filter_recent_relevant_posts current_time posts).Sublist posts ∧
    ∀ p ∈ filter_recent_relevant_posts current_time posts,
      ∃ text ts rest, p = PostVal.dict text (some ts) rest ∧
        current_time - 2592000 ≤ ts ∧
        (include_keywords.any fun kw =>
          containsSubstr (pyLower (text.getD "")) kw) = true ∧
        (exclude_keywords.any fun kw =>
          containsSubstr (pyLower (text.getD "")) kw) = false := by
  constructor
  · exact List.filter_sublist _
  intro p hp
  simp only [filter_recent_relevant_posts] at hp
  rw [List.mem_filter] at hp
  obtain ⟨hmem, hkeep⟩ := hp
  cases p with
  | other => simp at hkeep
  | dict text ts rest =>
    simp only [Option.getD] at hkeep
    cases ts with
    | none =>
      exfalso
      simp only at hkeep
      rw [if_pos (by omega)] at hkeep
      exact absurd hkeep (by simp)
    | some t =>
      simp only at hkeep
      by_cases ht : (t : Int) < current_time - (30 * 24 * 60 * 60)
      · rw [if_pos ht] at hkeep
        exact absurd hkeep (by simp)
      · rw [if_neg ht] at hkeep
        rw [Bool.and_eq_true, Bool.not_eq_true'] at hkeep
        exact ⟨text, t, rest, rfl, by omega, hkeep.2, hkeep.1⟩

/-- A concrete post list: one recent relevant dict post, one dict post
with no text and no timestamp, one non-dict entry. -/
def postsSample : List PostVal :=
  [.dict (some "Our digital growth project kickoff") (some 9000000) [("url", "u1")],
   .dict none none [],
   .other]

/-- Witness for C10 at `time.time() = 10000000`. -/
theorem filter_recent_relevant_posts_spec_witness :
    (filter_recent_relevant_posts 10000000 postsSample).Sublist postsSample ∧
    ∀ p ∈ filter_recent_relevant_posts 10000000 postsSample,
      ∃ text ts rest, p = PostVal.dict text (some ts) rest ∧
        (10000000 : Int) - 2592000 ≤ ts ∧
        (include_keywords.any fun kw =>
          containsSubstr (pyLower (text.getD "")) kw) = true ∧
        (exclude_keywords.any fun kw =>
          containsSubstr (pyLower (text.getD "")) kw) = false :=
  filter_recent_relevant_posts_spec 10000000 postsSample (by norm_num)
